import Mathlib

set_option maxHeartbeats 1000000

/- Verification development for the poligonos-cobertura repository.

The two Python sources (src/ejemplo_rapido_folium.py and src/streamlit_app.py)
contain textually identical core logic: an Intersector loop that intersects a
target parroquia polygon with the coverage records at level -85 dBm, and the
function crear_geometria_unificada that bridges the resulting pieces with
buffered centroid-to-centroid lines and unions everything.

Planar geometry itself is provided by the shapely library; the scripts use it
through a small set of operations (is_empty, centroid, LineString, within,
intersects, buffer, unary_union, intersection).  We embed the scripts as
functions parametrised by an abstract interface `GeoOps` supplying those
operations, with the two fallible ones (unary_union, intersection) returning
`Except Unit`.  A small executable instance over axis-aligned rectangles
(`GeomC`, `opsC`) provides concrete runs for witnesses and counterexamples. -/

/-- Interface of the shapely operations used by the scripts.  `G` is the type
of geometry values (polygons, multipolygons, line strings, buffers, unions),
`P` the type of centroid points.  `unary_union` and `interseccion_g` model the
operations that may raise a geometric exception. -/
structure GeoOps (G P : Type) where
  is_empty : G → Bool
  centroid : G → P
  lineString : P → P → G
  within : G → G → Bool
  intersects : G → G → Bool
  buffer : G → Nat → G
  unary_union : List G → Except Unit G
  interseccion_g : G → G → Except Unit G

/-- All ordered pairs (i before j) of a list, in the order produced by the
Python nested loop `for i in range(n): for j in range(i+1, n)`. -/
def allPairs {α : Type} : List α → List (α × α)
  | [] => []
  | x :: xs => (xs.map fun y => (x, y)) ++ allPairs xs

/-- Centroids of the non-empty pieces, in input order: embeds the loop
`for interseccion in intersecciones: if not interseccion.is_empty:
centroides.append((centroide.x, centroide.y))`
(ejemplo_rapido_folium.py lines 67-71, streamlit_app.py lines 81-85). -/
def centroidesDe {G P : Type} (ops : GeoOps G P) (intersecciones : List G) : List P :=
  (intersecciones.filter fun g => !(ops.is_empty g)).map ops.centroid

/-- The validity gate applied to a candidate connection line:
`linea.within(parroquia_geom) or linea.intersects(parroquia_geom)`
(ejemplo_rapido_folium.py line 81, streamlit_app.py line 95). -/
def aceptaLinea {G P : Type} (ops : GeoOps G P) (linea parroquia_geom : G) : Bool :=
  ops.within linea parroquia_geom || ops.intersects linea parroquia_geom

/-- Candidate connection lines: the nested all-pairs loop over the centroid
list with the validity gate (ejemplo_rapido_folium.py lines 76-82,
streamlit_app.py lines 90-96). -/
def lineasConexion {G P : Type} (ops : GeoOps G P) (intersecciones : List G)
    (parroquia_geom : G) : List G :=
  (allPairs (centroidesDe ops intersecciones)).filterMap fun par =>
    let linea := ops.lineString par.1 par.2
    if aceptaLinea ops linea parroquia_geom then some linea else none

/-- The corridor polygons: each accepted line buffered with
`buffer_width = 1` (ejemplo_rapido_folium.py lines 86-91,
streamlit_app.py lines 100-105). -/
def puentesDe {G P : Type} (ops : GeoOps G P) (intersecciones : List G)
    (parroquia_geom : G) : List G :=
  (lineasConexion ops intersecciones parroquia_geom).map fun linea => ops.buffer linea 1

/-- Embedding of `crear_geometria_unificada` (ejemplo_rapido_folium.py lines
58-119, streamlit_app.py lines 72-133; the two copies are identical up to the
logging calls).  The Python control flow is:

  if len(intersecciones) <= 1: return intersecciones[0] if intersecciones else None, []
  try:
    centroides / lineas_conexion / puentes as above
    geometria_unificada = unary_union(intersecciones + puentes)
    if geometria_unificada.is_empty:
        geometria_unificada = unary_union(intersecciones)   # may raise -> except
    return geometria_unificada, lineas_conexion
  except: try: return unary_union(intersecciones), [] except: return None, []

Exceptions are deterministic in the model, so when the inner
`unary_union(intersecciones)` raises inside the try block, the identical call
in the except block raises again and the result is (None, []). -/
def crear_geometria_unificada {G P : Type} (ops : GeoOps G P) (intersecciones : List G)
    (parroquia_geom : G) : Option G × List G :=
  if intersecciones.length ≤ 1 then
    (intersecciones.head?, [])
  else
    let lineas := lineasConexion ops intersecciones parroquia_geom
    let puentes := puentesDe ops intersecciones parroquia_geom
    match ops.unary_union (intersecciones ++ puentes) with
    | Except.error _ =>
        match ops.unary_union intersecciones with
        | Except.ok g => (some g, [])
        | Except.error _ => (none, [])
    | Except.ok g =>
        if ops.is_empty g then
          match ops.unary_union intersecciones with
          | Except.ok g2 => (some g2, lineas)
          | Except.error _ => (none, [])
        else (some g, lineas)

/-- One step of the Intersector: `target.intersection(candidate)` inside
try/except, appended only when non-empty (ejemplo_rapido_folium.py lines
239-249, streamlit_app.py lines 222-230). -/
def piezaDe {G P : Type} (ops : GeoOps G P) (target candidato : G) : Option G :=
  match ops.interseccion_g target candidato with
  | Except.error _ => none
  | Except.ok i => if ops.is_empty i then none else some i

/-- Intersector without a level selector: intersect the target with every
candidate geometry, skipping raised exceptions and empty results
(streamlit_app.py lines 202-209, the branch taken when no coverage-level
column was found). -/
def intersecarLista {G P : Type} (ops : GeoOps G P) (target : G) : List G → List G
  | [] => []
  | g :: resto =>
      let cola := intersecarLista ops target resto
      match ops.interseccion_g target g with
      | Except.error _ => cola
      | Except.ok i => if ops.is_empty i then cola else i :: cola

/-- Intersector with the level selector: for each (geometry, level) record,
intersect only when the level equals -85, skipping raised exceptions and
empty results (ejemplo_rapido_folium.py lines 230-249, streamlit_app.py
lines 213-232). -/
def intersecarConNivel {G P : Type} (ops : GeoOps G P) (target : G) :
    List (G × Int) → List G
  | [] => []
  | (g, nivel) :: resto =>
      let cola := intersecarConNivel ops target resto
      if nivel = -85 then
        match ops.interseccion_g target g with
        | Except.error _ => cola
        | Except.ok i => if ops.is_empty i then cola else i :: cola
      else cola

/-- An attribute column of the uploaded coverage dataset: whether its dtype is
numeric (float64/int64) and its per-row values (only read when numeric). -/
structure Columna where
  esNumerica : Bool
  valores : List Int
  deriving DecidableEq

/-- The column test of streamlit_app.py lines 191-197: dtype numeric and at
least one of the recognized levels -85, -95, -105 among its values. -/
def tieneNivelReconocido (c : Columna) : Bool :=
  c.esNumerica &&
    (c.valores.contains (-85) || c.valores.contains (-95) || c.valores.contains (-105))

/-- The column search loop of streamlit_app.py lines 190-197: first column
passing the test, if any. -/
def buscarCampoCobertura (cols : List Columna) : Option Columna :=
  cols.find? tieneNivelReconocido

/-- The uploaded coverage dataset: one geometry per row plus the attribute
columns (each column has one value per row). -/
structure DatosCobertura (G : Type) where
  geometrias : List G
  columnas : List Columna

/-- The intersection phase of `procesar_cobertura` (streamlit_app.py lines
186-232): if no coverage-level column is found, intersect with every row;
otherwise intersect only the rows whose value in that column is -85. -/
def calcularIntersecciones {G P : Type} (ops : GeoOps G P) (target : G)
    (datos : DatosCobertura G) : List G :=
  match buscarCampoCobertura datos.columnas with
  | none => intersecarLista ops target datos.geometrias
  | some campo => intersecarConNivel ops target (datos.geometrias.zip campo.valores)

/- Concrete executable geometry instance used for witnesses and
counterexamples: axis-aligned rectangles, line segments between integer
points, formal buffers and unions, and one `invalida` value standing for a
malformed geometry on which shapely raises. -/

/-- Concrete geometry values. -/
inductive GeomC where
  | vacia : GeomC
  | rect (x0 y0 x1 y1 : Int) : GeomC
  | linea (x0 y0 x1 y1 : Int) : GeomC
  | buf (g : GeomC) (d : Nat) : GeomC
  | uni (a b : GeomC) : GeomC
  | invalida : GeomC
  deriving DecidableEq

/-- Emptiness of a concrete geometry. -/
def esVaciaC : GeomC → Bool
  | GeomC.vacia => true
  | GeomC.rect x0 y0 x1 y1 => decide (x1 ≤ x0) || decide (y1 ≤ y0)
  | GeomC.linea _ _ _ _ => false
  | GeomC.buf g _ => esVaciaC g
  | GeomC.uni a b => esVaciaC a && esVaciaC b
  | GeomC.invalida => false

/-- Centroid of a concrete geometry (only rectangles are used as pieces in the
concrete runs; coordinates are chosen even so the midpoint is exact). -/
def centroideC : GeomC → Int × Int
  | GeomC.rect x0 y0 x1 y1 => ((x0 + x1) / 2, (y0 + y1) / 2)
  | _ => (0, 0)

/-- Point-in-rectangle test (closed rectangle). -/
def puntoEnRect (px py x0 y0 x1 y1 : Int) : Bool :=
  decide (x0 ≤ px) && decide (px ≤ x1) && decide (y0 ≤ py) && decide (py ≤ y1)

/-- `within` for the cases exercised concretely: a segment lies within a
rectangle iff both endpoints do (correct for convex rectangles). -/
def dentroC : GeomC → GeomC → Bool
  | GeomC.linea a b c d, GeomC.rect x0 y0 x1 y1 =>
      puntoEnRect a b x0 y0 x1 y1 && puntoEnRect c d x0 y0 x1 y1
  | _, _ => false

/-- `intersects` for the cases exercised concretely: an endpoint of the
segment lies in the rectangle (the concrete runs only use segments that do
not cross a rectangle without an endpoint inside it). -/
def intersectaC : GeomC → GeomC → Bool
  | GeomC.linea a b c d, GeomC.rect x0 y0 x1 y1 =>
      puntoEnRect a b x0 y0 x1 y1 || puntoEnRect c d x0 y0 x1 y1
  | _, _ => false

/-- Binary intersection: rectangle clipping; the `invalida` geometry raises,
other combinations are not exercised and yield the empty geometry. -/
def interseccionC : GeomC → GeomC → Except Unit GeomC
  | GeomC.rect a b c d, GeomC.rect e f g h =>
      let x0 := max a e
      let y0 := max b f
      let x1 := min c g
      let y1 := min d h
      if x0 < x1 ∧ y0 < y1 then Except.ok (GeomC.rect x0 y0 x1 y1) else Except.ok GeomC.vacia
  | _, GeomC.invalida => Except.error ()
  | GeomC.invalida, _ => Except.error ()
  | _, _ => Except.ok GeomC.vacia

/-- Binary union dropping empty operands. -/
def unir2C (a b : GeomC) : GeomC :=
  if esVaciaC a then b else if esVaciaC b then a else GeomC.uni a b

/-- N-ary union: raises on a malformed operand, otherwise folds the binary
union (so a union of only empty operands is empty). -/
def unionListaC (gs : List GeomC) : Except Unit GeomC :=
  if gs.contains GeomC.invalida then Except.error () else Except.ok (gs.foldl unir2C GeomC.vacia)

/-- The concrete operations bundle. -/
def opsC : GeoOps GeomC (Int × Int) :=
  ⟨esVaciaC, centroideC,
   fun p q => GeomC.linea p.1 p.2 q.1 q.2,
   dentroC, intersectaC, GeomC.buf, unionListaC, interseccionC⟩

/-- A variant bundle whose n-ary union returns the empty geometry on lists of
three or more operands: it exercises the defensive empty-union branch of
`crear_geometria_unificada` (the branch the code itself checks for). -/
def unionVaciaDesde3 (gs : List GeomC) : Except Unit GeomC :=
  if 3 ≤ gs.length then Except.ok GeomC.vacia else unionListaC gs

/-- Operations equal to `opsC` except for the degenerate union. -/
def opsC5 : GeoOps GeomC (Int × Int) :=
  ⟨esVaciaC, centroideC,
   fun p q => GeomC.linea p.1 p.2 q.1 q.2,
   dentroC, intersectaC, GeomC.buf, unionVaciaDesde3, interseccionC⟩

/-- A variant bundle whose n-ary union always raises, for exercising the
exception fallback chain. -/
def opsErr : GeoOps GeomC (Int × Int) :=
  ⟨esVaciaC, centroideC,
   fun p q => GeomC.linea p.1 p.2 q.1 q.2,
   dentroC, intersectaC, GeomC.buf, fun _ => Except.error (), interseccionC⟩

/-- Helper predicate: the union attempt raised. -/
def esError {G : Type} : Except Unit G → Bool
  | Except.error _ => true
  | Except.ok _ => false

/-- Helper predicate: the union attempt raised or yielded an empty geometry
(the two conditions triggering the fallback of spec step 7). -/
def unionFallida {G : Type} (vacia : G → Bool) : Except Unit G → Bool
  | Except.error _ => true
  | Except.ok g => vacia g

/- Helper lemmas shared by the claim theorems. -/

/-- Membership in `allPairs` is exactly being a two-element sublist: the first
component occurs strictly before the second in the list. -/
theorem mem_allPairs {α : Type} {xs : List α} {a b : α} :
    (a, b) ∈ allPairs xs ↔ List.Sublist [a, b] xs := by
  induction xs with
  | nil => simp [allPairs]
  | cons x xs ih =>
    simp only [allPairs, List.mem_append, List.mem_map, ih]
    constructor
    · rintro (⟨y, hy, hyeq⟩ | hs)
      · cases hyeq
        exact List.Sublist.cons₂ _ (List.singleton_sublist.mpr hy)
      · exact List.Sublist.cons _ hs
    · intro hs
      cases hs with
      | cons _ h => exact Or.inr h
      | cons₂ _ h => exact Or.inl ⟨b, List.singleton_sublist.mp h, rfl⟩

/-- Characterization of the candidate connection lines: a geometry is in the
list iff it is the line between two centroids, the first occurring before the
second in the centroid list, and it passes the validity gate. -/
theorem mem_lineasConexion {G P : Type} (ops : GeoOps G P) (intersecciones : List G)
    (parroquia_geom : G) (l : G) :
    l ∈ lineasConexion ops intersecciones parroquia_geom ↔
      ∃ c₁ c₂, List.Sublist [c₁, c₂] (centroidesDe ops intersecciones) ∧
        l = ops.lineString c₁ c₂ ∧ aceptaLinea ops l parroquia_geom = true := by
  unfold lineasConexion
  rw [List.mem_filterMap]
  constructor
  · rintro ⟨⟨c₁, c₂⟩, hmem, hf⟩
    dsimp only at hf
    by_cases hg : aceptaLinea ops (ops.lineString c₁ c₂) parroquia_geom = true
    · rw [if_pos hg] at hf
      cases hf
      exact ⟨c₁, c₂, mem_allPairs.mp hmem, rfl, hg⟩
    · rw [if_neg hg] at hf
      cases hf
  · rintro ⟨c₁, c₂, hsub, hl, hg⟩
    refine ⟨(c₁, c₂), mem_allPairs.mpr hsub, ?_⟩
    dsimp only
    subst hl
    rw [if_pos hg]

/-- Unfolding of `crear_geometria_unificada` on inputs with at least two
pieces: the four-branch union fallback chain. -/
theorem crear_dos {G P : Type} (ops : GeoOps G P) (intersecciones : List G)
    (parroquia_geom : G) (h2 : 2 ≤ intersecciones.length) :
    crear_geometria_unificada ops intersecciones parroquia_geom =
      match ops.unary_union (intersecciones ++ puentesDe ops intersecciones parroquia_geom) with
      | Except.error _ =>
          match ops.unary_union intersecciones with
          | Except.ok g => (some g, [])
          | Except.error _ => (none, [])
      | Except.ok g =>
          if ops.is_empty g then
            match ops.unary_union intersecciones with
            | Except.ok g2 => (some g2, lineasConexion ops intersecciones parroquia_geom)
            | Except.error _ => (none, [])
          else (some g, lineasConexion ops intersecciones parroquia_geom) := by
  unfold crear_geometria_unificada
  rw [if_neg (by omega)]

/- Concrete data used in witnesses and counterexamples. -/

/-- A reference region comfortably containing all concrete pieces. -/
def regionC : GeomC := GeomC.rect (-2) (-2) 20 20

/-- Concrete piece with centroid (1, 1). -/
def r1C : GeomC := GeomC.rect 0 0 2 2

/-- Concrete piece with centroid (5, 1). -/
def r2C : GeomC := GeomC.rect 4 0 6 2

/-- Concrete piece with centroid (9, 1). -/
def r3C : GeomC := GeomC.rect 8 0 10 2

/-- The end-to-end target square of spec section 8. -/
def cuadrado10 : GeomC := GeomC.rect 0 0 10 10

/-- The end-to-end coverage records of spec section 8: two level -85 squares
at opposite corners of the target and one level -95 square in the middle. -/
def registrosEjemplo : List (GeomC × Int) :=
  [(GeomC.rect 0 0 2 2, -85), (GeomC.rect 8 8 10 10, -85), (GeomC.rect 4 4 6 6, -95)]

/-- C3: unify on an empty list of pieces returns (null, []), and on a
singleton list [P] returns (P, []) unchanged; no corridor synthesis happens in
either case (the corridor list is empty). -/
theorem c3_trivial_cases {G P : Type} (ops : GeoOps G P) (pieza parroquia_geom : G) :
    crear_geometria_unificada ops [] parroquia_geom = (none, []) ∧
    crear_geometria_unificada ops [pieza] parroquia_geom = (some pieza, []) := by
  constructor <;> rfl

/-- C4: the Intersector with the level selector returns exactly the non-empty
intersections of the target with the candidates whose level is -85, in
insertion order (first conjunct: records at other levels contribute nothing;
second conjunct: the survivors are exactly the non-error, non-empty
intersection results in order); in particular, on the concrete scenario of a
target square with two intersecting level -85 candidates and one level -95
candidate, exactly the two corner pieces are returned. -/
theorem c4_intersector_level_filter {G P : Type} (ops : GeoOps G P) (target : G)
    (registros : List (G × Int)) (candidatos : List G) :
    intersecarConNivel ops target registros =
      intersecarLista ops target
        ((registros.filter fun r => decide (r.2 = -85)).map Prod.fst) ∧
    intersecarLista ops target candidatos =
      candidatos.filterMap (fun g => piezaDe ops target g) ∧
    intersecarConNivel opsC cuadrado10 registrosEjemplo =
      [GeomC.rect 0 0 2 2, GeomC.rect 8 8 10 10] := by
  refine ⟨?_, ?_, by decide⟩
  · induction registros with
    | nil => rfl
    | cons r resto ih =>
      obtain ⟨g, nivel⟩ := r
      by_cases h : nivel = -85
      · simp [intersecarConNivel, intersecarLista, List.filter_cons, h, ih]
      · simp [intersecarConNivel, List.filter_cons, h, ih]
  · induction candidatos with
    | nil => rfl
    | cons g resto ih =>
      simp only [intersecarLista, piezaDe, List.filterMap_cons, ih]
      cases ops.interseccion_g target g with
      | error e => rfl
      | ok i =>
        by_cases h : ops.is_empty i = true
        · simp [h]
        · simp [h]

/-- Case lemma: primary union succeeds and is non-empty. -/
theorem crear_caso_ok {G P : Type} (ops : GeoOps G P) (xs : List G) (r : G)
    (h2 : 2 ≤ xs.length) (g : G)
    (hp : ops.unary_union (xs ++ puentesDe ops xs r) = Except.ok g)
    (hg : ops.is_empty g = false) :
    crear_geometria_unificada ops xs r = (some g, lineasConexion ops xs r) := by
  rw [crear_dos ops xs r h2, hp]
  simp [hg]

/-- Case lemma: primary union succeeds but is empty, fallback union succeeds. -/
theorem crear_caso_vacio_ok {G P : Type} (ops : GeoOps G P) (xs : List G) (r : G)
    (h2 : 2 ≤ xs.length) (g g2 : G)
    (hp : ops.unary_union (xs ++ puentesDe ops xs r) = Except.ok g)
    (hg : ops.is_empty g = true)
    (hf : ops.unary_union xs = Except.ok g2) :
    crear_geometria_unificada ops xs r = (some g2, lineasConexion ops xs r) := by
  rw [crear_dos ops xs r h2, hp]
  simp [hg, hf]

/-- Case lemma: primary union succeeds but is empty, fallback union raises. -/
theorem crear_caso_vacio_err {G P : Type} (ops : GeoOps G P) (xs : List G) (r : G)
    (h2 : 2 ≤ xs.length) (g : G) (e : Unit)
    (hp : ops.unary_union (xs ++ puentesDe ops xs r) = Except.ok g)
    (hg : ops.is_empty g = true)
    (hf : ops.unary_union xs = Except.error e) :
    crear_geometria_unificada ops xs r = (none, []) := by
  rw [crear_dos ops xs r h2, hp]
  simp [hg, hf]

/-- Case lemma: primary union raises, fallback union succeeds. -/
theorem crear_caso_err_ok {G P : Type} (ops : GeoOps G P) (xs : List G) (r : G)
    (h2 : 2 ≤ xs.length) (e : Unit) (g : G)
    (hp : ops.unary_union (xs ++ puentesDe ops xs r) = Except.error e)
    (hf : ops.unary_union xs = Except.ok g) :
    crear_geometria_unificada ops xs r = (some g, []) := by
  rw [crear_dos ops xs r h2, hp]
  simp [hf]

/-- Case lemma: primary union raises and the fallback union raises too. -/
theorem crear_caso_err_err {G P : Type} (ops : GeoOps G P) (xs : List G) (r : G)
    (h2 : 2 ≤ xs.length) (e e2 : Unit)
    (hp : ops.unary_union (xs ++ puentesDe ops xs r) = Except.error e)
    (hf : ops.unary_union xs = Except.error e2) :
    crear_geometria_unificada ops xs r = (none, []) := by
  rw [crear_dos ops xs r h2, hp]
  simp [hf]

/-- C1 counterexample: on three simple pieces with centroids (1,1), (5,1),
(9,1) — already in ascending centroid-X order — unify constructs a corridor
candidate segment for every pair, including the segment (1,1)-(9,1) between
the two non-consecutive extreme parts, so the candidate list has 3 segments,
not one per consecutive pair (which would be 2). -/
theorem c1_contraejemplo :
    (crear_geometria_unificada opsC [r1C, r2C, r3C] regionC).2 =
      [GeomC.linea 1 1 5 1, GeomC.linea 1 1 9 1, GeomC.linea 5 1 9 1] ∧
    GeomC.linea 1 1 9 1 ∈ (crear_geometria_unificada opsC [r1C, r2C, r3C] regionC).2 ∧
    (crear_geometria_unificada opsC [r1C, r2C, r3C] regionC).2.length ≠ 2 := by
  decide

/-- C1 amended: on the non-exceptional paths, unify constructs corridor
candidate segments between every pair of centroids of non-empty pieces, the
first taken before the second in input order (all-pairs, not only consecutive
parts): the returned list is the all-pairs candidate list, and a geometry
belongs to it iff it is the centroid-to-centroid line of such a pair and
passes the validity gate.  No decomposition into simple polygons and no
sorting by centroid X happens inside unify. -/
theorem c1_amended_all_pairs {G P : Type} (ops : GeoOps G P) (intersecciones : List G)
    (parroquia_geom : G) (h2 : 2 ≤ intersecciones.length)
    (hok : esError (ops.unary_union
      (intersecciones ++ puentesDe ops intersecciones parroquia_geom)) = false)
    (hfb : esError (ops.unary_union intersecciones) = false) :
    (crear_geometria_unificada ops intersecciones parroquia_geom).2 =
      lineasConexion ops intersecciones parroquia_geom ∧
    ∀ l, l ∈ (crear_geometria_unificada ops intersecciones parroquia_geom).2 ↔
      ∃ c₁ c₂, List.Sublist [c₁, c₂] (centroidesDe ops intersecciones) ∧
        l = ops.lineString c₁ c₂ ∧ aceptaLinea ops l parroquia_geom = true := by
  have hmain : (crear_geometria_unificada ops intersecciones parroquia_geom).2 =
      lineasConexion ops intersecciones parroquia_geom := by
    cases hp : ops.unary_union
        (intersecciones ++ puentesDe ops intersecciones parroquia_geom) with
    | error e => rw [hp] at hok; simp [esError] at hok
    | ok g =>
      by_cases hg : ops.is_empty g = true
      · cases hf : ops.unary_union intersecciones with
        | error e2 => rw [hf] at hfb; simp [esError] at hfb
        | ok g2 =>
          rw [crear_caso_vacio_ok ops intersecciones parroquia_geom h2 g g2 hp hg hf]
      · rw [crear_caso_ok ops intersecciones parroquia_geom h2 g hp
          (Bool.not_eq_true _ ▸ hg)]
  refine ⟨hmain, fun l => ?_⟩
  rw [hmain]
  exact mem_lineasConexion ops intersecciones parroquia_geom l

/-- C1 witness: the amended theorem applied to the three concrete pieces. -/
theorem c1_amended_all_pairs_witness :
    (2 ≤ ([r1C, r2C, r3C] : List GeomC).length ∧
     esError (opsC.unary_union
       ([r1C, r2C, r3C] ++ puentesDe opsC [r1C, r2C, r3C] regionC)) = false ∧
     esError (opsC.unary_union [r1C, r2C, r3C]) = false) ∧
    (crear_geometria_unificada opsC [r1C, r2C, r3C] regionC).2 =
      lineasConexion opsC [r1C, r2C, r3C] regionC :=
  ⟨⟨by decide, by decide, by decide⟩,
   (c1_amended_all_pairs opsC [r1C, r2C, r3C] regionC (by decide) (by decide) (by decide)).1⟩

/-- C2: unify returns the union of the pieces together with the corridor
polygons when that union succeeds non-empty; when the primary union raises or
yields an empty geometry, the returned geometry is the result of unioning the
pieces alone (as an Option: none when that also raises); and when on top of a
failed primary union the fallback union raises, the result is (none, []). -/
theorem c2_union_fallback_chain {G P : Type} (ops : GeoOps G P) (intersecciones : List G)
    (parroquia_geom : G) (h2 : 2 ≤ intersecciones.length) :
    (∀ g, ops.unary_union
        (intersecciones ++ puentesDe ops intersecciones parroquia_geom) = Except.ok g →
      ops.is_empty g = false →
      (crear_geometria_unificada ops intersecciones parroquia_geom).1 = some g) ∧
    (unionFallida ops.is_empty (ops.unary_union
        (intersecciones ++ puentesDe ops intersecciones parroquia_geom)) = true →
      (crear_geometria_unificada ops intersecciones parroquia_geom).1 =
        (ops.unary_union intersecciones).toOption) ∧
    (unionFallida ops.is_empty (ops.unary_union
        (intersecciones ++ puentesDe ops intersecciones parroquia_geom)) = true →
      esError (ops.unary_union intersecciones) = true →
      crear_geometria_unificada ops intersecciones parroquia_geom = (none, [])) := by
  refine ⟨?_, ?_, ?_⟩
  · intro g hp hg
    rw [crear_caso_ok ops intersecciones parroquia_geom h2 g hp hg]
  · intro hfall
    cases hp : ops.unary_union
        (intersecciones ++ puentesDe ops intersecciones parroquia_geom) with
    | error e =>
      cases hf : ops.unary_union intersecciones with
      | error e2 =>
        rw [crear_caso_err_err ops intersecciones parroquia_geom h2 e e2 hp hf]
        rfl
      | ok g =>
        rw [crear_caso_err_ok ops intersecciones parroquia_geom h2 e g hp hf]
        rfl
    | ok g =>
      rw [hp] at hfall
      have hg : ops.is_empty g = true := by simpa [unionFallida] using hfall
      cases hf : ops.unary_union intersecciones with
      | error e2 =>
        rw [crear_caso_vacio_err ops intersecciones parroquia_geom h2 g e2 hp hg hf]
        rfl
      | ok g2 =>
        rw [crear_caso_vacio_ok ops intersecciones parroquia_geom h2 g g2 hp hg hf]
        rfl
  · intro hfall herr
    cases hf : ops.unary_union intersecciones with
    | ok g => rw [hf] at herr; simp [esError] at herr
    | error e2 =>
      cases hp : ops.unary_union
          (intersecciones ++ puentesDe ops intersecciones parroquia_geom) with
      | error e =>
        exact crear_caso_err_err ops intersecciones parroquia_geom h2 e e2 hp hf
      | ok g =>
        rw [hp] at hfall
        have hg : ops.is_empty g = true := by simpa [unionFallida] using hfall
        exact crear_caso_vacio_err ops intersecciones parroquia_geom h2 g e2 hp hg hf

/-- C2 witness: the fallback clause applied concretely with the degenerate
union operations (primary union yields the empty geometry) and with the
always-raising union operations (both attempts raise). -/
theorem c2_union_fallback_chain_witness :
    (unionFallida opsC5.is_empty (opsC5.unary_union
        ([r1C, r3C] ++ puentesDe opsC5 [r1C, r3C] regionC)) = true ∧
     (crear_geometria_unificada opsC5 [r1C, r3C] regionC).1 =
       (opsC5.unary_union [r1C, r3C]).toOption) ∧
    (esError (opsErr.unary_union [r1C, r3C]) = true ∧
     crear_geometria_unificada opsErr [r1C, r3C] regionC = (none, [])) :=
  ⟨⟨by decide,
    (c2_union_fallback_chain opsC5 [r1C, r3C] regionC (by decide)).2.1 (by decide)⟩,
   ⟨by decide,
    (c2_union_fallback_chain opsErr [r1C, r3C] regionC (by decide)).2.2 (by decide) (by decide)⟩⟩

/-- C5 counterexample: on two pieces with an accepted connection segment,
the second component of the result is the raw segment, not the buffered
corridor polygon actually placed in the union (first conjuncts); and with the
degenerate union operations, where the primary union yields an empty geometry
so the returned geometry falls back to the union of the pieces alone with the
corridors dropped, the returned list is still the non-empty segment list, not
empty (last conjuncts). -/
theorem c5_contraejemplo :
    ((crear_geometria_unificada opsC [r1C, r3C] regionC).2 = [GeomC.linea 1 1 9 1] ∧
     GeomC.linea 1 1 9 1 ≠ GeomC.buf (GeomC.linea 1 1 9 1) 1 ∧
     GeomC.buf (GeomC.linea 1 1 9 1) 1 ∉ (crear_geometria_unificada opsC [r1C, r3C] regionC).2) ∧
    (unionFallida opsC5.is_empty (opsC5.unary_union
        ([r1C, r3C] ++ puentesDe opsC5 [r1C, r3C] regionC)) = true ∧
     (crear_geometria_unificada opsC5 [r1C, r3C] regionC).1 =
       (opsC5.unary_union [r1C, r3C]).toOption ∧
     (crear_geometria_unificada opsC5 [r1C, r3C] regionC).2 ≠ []) := by
  decide

/-- C5 amended: the second component of the result is the list of accepted
connection segments (whose 1-buffers are the corridor polygons placed in the
union).  It is [] when the primary union raises, and also when the primary
union yields an empty geometry and the fallback union of the pieces alone
raises; but when the primary union merely yields an empty geometry and the
fallback union succeeds, the segment list is returned unchanged even though
the corridors were dropped from the geometry. -/
theorem c5_amended_segments_returned {G P : Type} (ops : GeoOps G P)
    (intersecciones : List G) (parroquia_geom : G) (h2 : 2 ≤ intersecciones.length) :
    (∀ g, ops.unary_union
        (intersecciones ++ puentesDe ops intersecciones parroquia_geom) = Except.ok g →
      ops.is_empty g = false →
      (crear_geometria_unificada ops intersecciones parroquia_geom).2 =
        lineasConexion ops intersecciones parroquia_geom) ∧
    (∀ g g2, ops.unary_union
        (intersecciones ++ puentesDe ops intersecciones parroquia_geom) = Except.ok g →
      ops.is_empty g = true → ops.unary_union intersecciones = Except.ok g2 →
      (crear_geometria_unificada ops intersecciones parroquia_geom).2 =
        lineasConexion ops intersecciones parroquia_geom) ∧
    (∀ e, ops.unary_union
        (intersecciones ++ puentesDe ops intersecciones parroquia_geom) = Except.error e →
      (crear_geometria_unificada ops intersecciones parroquia_geom).2 = []) ∧
    (∀ g e, ops.unary_union
        (intersecciones ++ puentesDe ops intersecciones parroquia_geom) = Except.ok g →
      ops.is_empty g = true → ops.unary_union intersecciones = Except.error e →
      (crear_geometria_unificada ops intersecciones parroquia_geom).2 = []) := by
  refine ⟨?_, ?_, ?_, ?_⟩
  · intro g hp hg
    rw [crear_caso_ok ops intersecciones parroquia_geom h2 g hp hg]
  · intro g g2 hp hg hf
    rw [crear_caso_vacio_ok ops intersecciones parroquia_geom h2 g g2 hp hg hf]
  · intro e hp
    cases hf : ops.unary_union intersecciones with
    | error e2 =>
      rw [crear_caso_err_err ops intersecciones parroquia_geom h2 e e2 hp hf]
    | ok g =>
      rw [crear_caso_err_ok ops intersecciones parroquia_geom h2 e g hp hf]
  · intro g e hp hg hf
    rw [crear_caso_vacio_err ops intersecciones parroquia_geom h2 g e hp hg hf]

/-- C5 witness: the empty-primary-union clause applied concretely with the
degenerate union operations: the segment list is returned unchanged. -/
theorem c5_amended_segments_returned_witness :
    (2 ≤ ([r1C, r3C] : List GeomC).length ∧
     opsC5.unary_union ([r1C, r3C] ++ puentesDe opsC5 [r1C, r3C] regionC) =
       Except.ok GeomC.vacia ∧
     opsC5.is_empty GeomC.vacia = true ∧
     opsC5.unary_union [r1C, r3C] = Except.ok (GeomC.uni r1C r3C)) ∧
    (crear_geometria_unificada opsC5 [r1C, r3C] regionC).2 =
      lineasConexion opsC5 [r1C, r3C] regionC :=
  ⟨⟨by decide, by rfl, by decide, by rfl⟩,
   (c5_amended_segments_returned opsC5 [r1C, r3C] regionC (by decide)).2.1
     GeomC.vacia (GeomC.uni r1C r3C) (by rfl) (by decide) (by rfl)⟩

/-- C6: a centroid-to-centroid connection segment between two centroids of
the working list is accepted as a corridor candidate iff it lies within the
reference region or intersects it; a segment passing neither predicate is
never in the returned corridor list (and hence is never buffered into the
union). -/
theorem c6_validity_gate {G P : Type} (ops : GeoOps G P) (intersecciones : List G)
    (parroquia_geom : G) (c₁ c₂ : P)
    (hsub : List.Sublist [c₁, c₂] (centroidesDe ops intersecciones)) :
    (ops.lineString c₁ c₂ ∈ lineasConexion ops intersecciones parroquia_geom ↔
      (ops.within (ops.lineString c₁ c₂) parroquia_geom ||
       ops.intersects (ops.lineString c₁ c₂) parroquia_geom) = true) ∧
    ((ops.within (ops.lineString c₁ c₂) parroquia_geom ||
      ops.intersects (ops.lineString c₁ c₂) parroquia_geom) = false →
      ops.lineString c₁ c₂ ∉ (crear_geometria_unificada ops intersecciones parroquia_geom).2) := by
  have hchar := mem_lineasConexion ops intersecciones parroquia_geom (ops.lineString c₁ c₂)
  constructor
  · constructor
    · intro hmem
      obtain ⟨d₁, d₂, _, _, hg⟩ := hchar.mp hmem
      exact hg
    · intro hg
      exact hchar.mpr ⟨c₁, c₂, hsub, rfl, hg⟩
  · intro hg hmem
    have hnot : ops.lineString c₁ c₂ ∉ lineasConexion ops intersecciones parroquia_geom := by
      intro hmem2
      obtain ⟨d₁, d₂, _, _, hg2⟩ := hchar.mp hmem2
      rw [aceptaLinea] at hg2
      rw [hg2] at hg
      cases hg
    by_cases h1 : intersecciones.length ≤ 1
    · unfold crear_geometria_unificada at hmem
      rw [if_pos h1] at hmem
      cases hmem
    · rw [crear_dos ops intersecciones parroquia_geom (by omega)] at hmem
      revert hmem
      cases hp : ops.unary_union
          (intersecciones ++ puentesDe ops intersecciones parroquia_geom) with
      | error e =>
        cases hf : ops.unary_union intersecciones with
        | error e2 => intro hmem; cases hmem
        | ok g => intro hmem; cases hmem
      | ok g =>
        by_cases hg2 : ops.is_empty g = true
        · cases hf : ops.unary_union intersecciones with
          | error e2 => simp [hg2]
          | ok g2 => simp [hg2]; intro hmem; exact hnot hmem
        · simp [hg2]; intro hmem; exact hnot hmem

/-- C6 witness: the gate test applied to the concrete pieces, both for an
accepted segment (both predicates hold) and through membership. -/
theorem c6_validity_gate_witness :
    List.Sublist [((1 : Int), (1 : Int)), ((9 : Int), (1 : Int))]
      (centroidesDe opsC [r1C, r3C]) ∧
    (opsC.lineString (1, 1) (9, 1) ∈ lineasConexion opsC [r1C, r3C] regionC ↔
      (opsC.within (opsC.lineString (1, 1) (9, 1)) regionC ||
       opsC.intersects (opsC.lineString (1, 1) (9, 1)) regionC) = true) :=
  ⟨by decide,
   (c6_validity_gate opsC [r1C, r3C] regionC (1, 1) (9, 1) (by decide)).1⟩

/-- C7: every accepted connection segment is widened into its corridor by
buffering with the fixed radius 1 — the corridor list is exactly the map of
`buffer 1` over the accepted segments, each accepted segment contributes its
1-buffer, and the geometry unify unions (on the successful primary path) is
the pieces together with exactly those 1-buffers. -/
theorem c7_buffer_radius_one {G P : Type} (ops : GeoOps G P) (intersecciones : List G)
    (parroquia_geom : G) (h2 : 2 ≤ intersecciones.length) :
    puentesDe ops intersecciones parroquia_geom =
      (lineasConexion ops intersecciones parroquia_geom).map (fun l => ops.buffer l 1) ∧
    (∀ l, l ∈ lineasConexion ops intersecciones parroquia_geom →
      ops.buffer l 1 ∈ puentesDe ops intersecciones parroquia_geom) ∧
    (∀ g, ops.unary_union (intersecciones ++
        (lineasConexion ops intersecciones parroquia_geom).map (fun l => ops.buffer l 1)) =
          Except.ok g →
      ops.is_empty g = false →
      crear_geometria_unificada ops intersecciones parroquia_geom =
        (some g, lineasConexion ops intersecciones parroquia_geom)) := by
  refine ⟨rfl, ?_, ?_⟩
  · intro l hl
    rw [puentesDe]
    exact List.mem_map_of_mem _ hl
  · intro g hp hg
    exact crear_caso_ok ops intersecciones parroquia_geom h2 g hp hg

/-- C7 witness: on two concrete pieces the unioned geometry contains exactly
the 1-buffer of the single accepted segment alongside the pieces. -/
theorem c7_buffer_radius_one_witness :
    (opsC.unary_union ([r1C, r3C] ++
        (lineasConexion opsC [r1C, r3C] regionC).map (fun l => opsC.buffer l 1)) =
      Except.ok (GeomC.uni (GeomC.uni r1C r3C) (GeomC.buf (GeomC.linea 1 1 9 1) 1)) ∧
     opsC.is_empty (GeomC.uni (GeomC.uni r1C r3C) (GeomC.buf (GeomC.linea 1 1 9 1) 1)) = false) ∧
    crear_geometria_unificada opsC [r1C, r3C] regionC =
      (some (GeomC.uni (GeomC.uni r1C r3C) (GeomC.buf (GeomC.linea 1 1 9 1) 1)),
       lineasConexion opsC [r1C, r3C] regionC) :=
  ⟨⟨by rfl, by decide⟩,
   (c7_buffer_radius_one opsC [r1C, r3C] regionC (by decide)).2.2 _ (by rfl) (by decide)⟩

/-- C8: when the intersection computation for one candidate record raises,
that record alone is skipped: the Intersector result over any record list
containing the failing record equals the result over the same list with the
failing record removed, and no exception propagates (the function is total). -/
theorem c8_skip_failing_candidate {G P : Type} (ops : GeoOps G P) (target : G)
    (pre post : List (G × Int)) (g : G) (nivel : Int)
    (h : ops.interseccion_g target g = Except.error ()) :
    intersecarConNivel ops target (pre ++ (g, nivel) :: post) =
      intersecarConNivel ops target (pre ++ post) := by
  induction pre with
  | nil =>
    simp only [List.nil_append, intersecarConNivel]
    by_cases hn : nivel = -85
    · simp [hn, h]
    · simp [hn]
  | cons r resto ih =>
    obtain ⟨g2, n2⟩ := r
    simp only [List.cons_append, intersecarConNivel, List.append_eq]
    rw [ih]

/-- C8 witness: a malformed candidate between two valid level -85 candidates
is skipped and the result equals the run without it. -/
theorem c8_skip_failing_candidate_witness :
    opsC.interseccion_g cuadrado10 GeomC.invalida = Except.error () ∧
    intersecarConNivel opsC cuadrado10
        ([(GeomC.rect 0 0 2 2, -85)] ++
          (GeomC.invalida, -85) :: [(GeomC.rect 8 8 10 10, -85)]) =
      intersecarConNivel opsC cuadrado10
        ([(GeomC.rect 0 0 2 2, -85)] ++ [(GeomC.rect 8 8 10 10, -85)]) :=
  ⟨by rfl,
   c8_skip_failing_candidate opsC cuadrado10 [(GeomC.rect 0 0 2 2, -85)]
     [(GeomC.rect 8 8 10 10, -85)] GeomC.invalida (-85) (by rfl)⟩

/-- C9: when no numeric column of the uploaded dataset passes the
recognized-level test, the level selector is bypassed: the computed pieces
are the intersections with every candidate geometry, regardless of any
level values. -/
theorem c9_no_field_bypass {G P : Type} (ops : GeoOps G P) (target : G)
    (datos : DatosCobertura G)
    (h : ∀ c ∈ datos.columnas, tieneNivelReconocido c = false) :
    calcularIntersecciones ops target datos = intersecarLista ops target datos.geometrias := by
  have hn : buscarCampoCobertura datos.columnas = none := by
    rw [buscarCampoCobertura, List.find?_eq_none]
    intro c hc
    simp [h c hc]
  simp [calcularIntersecciones, hn]

/-- Concrete dataset for the C9 witness: a non-numeric column whose values
happen to include -85 (ignored because of its dtype) and a numeric column
with no recognized level; its rows carry levels no selector would accept. -/
def datosC9 : DatosCobertura GeomC :=
  ⟨[GeomC.rect 0 0 2 2, GeomC.rect 8 8 10 10],
   [⟨false, [-85]⟩, ⟨true, [-70, -60]⟩]⟩

/-- C9 witness: on the concrete dataset the bypass computes the intersections
with every row — two pieces, not zero. -/
theorem c9_no_field_bypass_witness :
    (∀ c ∈ datosC9.columnas, tieneNivelReconocido c = false) ∧
    calcularIntersecciones opsC cuadrado10 datosC9 =
      intersecarLista opsC cuadrado10 datosC9.geometrias ∧
    calcularIntersecciones opsC cuadrado10 datosC9 ≠ [] :=
  ⟨by decide, c9_no_field_bypass opsC cuadrado10 datosC9 (by decide), by decide⟩

/-- C10: the trivial branch of unify tests only the length of the piece list:
a singleton [P] yields (P, []) with no emptiness test on P, and a none
geometry in the result implies the input list was empty or the primary union
failed (raised or empty) with the fallback union raising too — never merely
that the single input piece was empty. -/
theorem c10_length_only_trivial_branch {G P : Type} (ops : GeoOps G P)
    (pieza parroquia_geom : G) (intersecciones : List G) :
    crear_geometria_unificada ops [pieza] parroquia_geom = (some pieza, []) ∧
    ((crear_geometria_unificada ops intersecciones parroquia_geom).1 = none →
      intersecciones = [] ∨
        (unionFallida ops.is_empty (ops.unary_union
            (intersecciones ++ puentesDe ops intersecciones parroquia_geom)) = true ∧
         esError (ops.unary_union intersecciones) = true)) := by
  constructor
  · rfl
  · intro hnone
    cases intersecciones with
    | nil => exact Or.inl rfl
    | cons a resto =>
      cases resto with
      | nil => simp [crear_geometria_unificada] at hnone
      | cons b resto2 =>
        have h2 : 2 ≤ (a :: b :: resto2).length := by
          simp [List.length_cons]
        rw [crear_dos ops (a :: b :: resto2) parroquia_geom h2] at hnone
        revert hnone
        cases hp : ops.unary_union
            ((a :: b :: resto2) ++ puentesDe ops (a :: b :: resto2) parroquia_geom) with
        | error e =>
          cases hf : ops.unary_union (a :: b :: resto2) with
          | error e2 =>
            intro _
            exact Or.inr ⟨rfl, rfl⟩
          | ok g => simp
        | ok g =>
          by_cases hg : ops.is_empty g = true
          · cases hf : ops.unary_union (a :: b :: resto2) with
            | error e2 =>
              intro _
              exact Or.inr ⟨by simpa [unionFallida] using hg, rfl⟩
            | ok g2 => simp [hg]
          · simp [hg]

/-- C10 witness: with the always-raising union operations on two pieces the
result geometry is none, and the theorem locates the cause in the two failed
union attempts, not in any emptiness of a piece. -/
theorem c10_length_only_trivial_branch_witness :
    (crear_geometria_unificada opsErr [r1C, r3C] regionC).1 = none ∧
    ([r1C, r3C] = ([] : List GeomC) ∨
      (unionFallida opsErr.is_empty (opsErr.unary_union
          ([r1C, r3C] ++ puentesDe opsErr [r1C, r3C] regionC)) = true ∧
       esError (opsErr.unary_union [r1C, r3C]) = true)) :=
  ⟨by decide,
   (c10_length_only_trivial_branch opsErr r1C regionC [r1C, r3C]).2 (by decide)⟩
